import Mathlib

/-!
Shallow embedding of the message dispatch and reply pipeline of
src/telegram_bot.py (TelegramBotFunChat).

Python dictionaries keyed by chat id become association lists, wall-clock
instants become rationals, the Groq HTTP exchange becomes an explicit
oracle value, and the uniform random draw of a fallback message becomes an
index parameter.  The outbound Telegram send is an external collaborator;
the ReplyDecision value records which branch of the decision chain fired
and with which reply text.
-/

/-- Whitespace recognized by the Python str.strip and str.split defaults,
restricted to the ASCII whitespace characters the bot ever feeds them. -/
def isPySpace (c : Char) : Bool :=
  c == ' ' || c == '\t' || c == '\n' || c == '\r' || c == '\x0b' || c == '\x0c'

/-- Python str.strip on a character list: drop leading and trailing whitespace. -/
def pyStripL (l : List Char) : List Char :=
  ((l.dropWhile isPySpace).reverse.dropWhile isPySpace).reverse

/-- Python str.strip. -/
def pyStripStr (s : String) : String :=
  ⟨pyStripL s.data⟩

/-- Character-wise lowering, the model of Python str.lower (ASCII letters). -/
def lowerChars (l : List Char) : List Char := l.map Char.toLower

/-- Model of Python str.lower. -/
def strLower (s : String) : String := ⟨lowerChars s.data⟩

/-- Exact list match at the front. -/
def lcStartsWith : List Char → List Char → Bool
  | [], _ => true
  | _ :: _, [] => false
  | p :: ps, c :: cs => p == c && lcStartsWith ps cs

/-- Exact substring occurrence, Python `needle in hay`. -/
def lcContains (p : List Char) : List Char → Bool
  | [] => p.isEmpty
  | c :: rest => lcStartsWith p (c :: rest) || lcContains p rest

/-- Python `needle in hay` on strings. -/
def strContainsSubstr (needle hay : String) : Bool := lcContains needle.data hay.data

/-- Python str.startswith. -/
def strStartsWith (s pre : String) : Bool := lcStartsWith pre.data s.data

/-- Python `c in s` for a single character. -/
def strContainsChar (s : String) (c : Char) : Bool := s.data.contains c

/-- Case-insensitive match at the front: re.IGNORECASE on a literal pattern,
modelled through Char.toLower on both sides. -/
def lcStartsWithCI : List Char → List Char → Bool
  | [], _ => true
  | _ :: _, [] => false
  | p :: ps, c :: cs => p.toLower == c.toLower && lcStartsWithCI ps cs

/-- One left-to-right non-overlapping scan of re.subn with a single-space
replacement text.  The skip argument counts pattern characters still to be
swallowed after a match was found; it is zero at every fresh position.
Only called with a nonempty pattern (the compiled mention pattern). -/
def subnAux (pat : List Char) : List Char → Nat → List Char × Nat
  | [], _ => ([], 0)
  | _ :: rest, skip + 1 => subnAux pat rest skip
  | c :: rest, 0 =>
    if lcStartsWithCI pat (c :: rest) then
      let pr := subnAux pat rest (pat.length - 1)
      (' ' :: pr.1, pr.2 + 1)
    else
      let pr := subnAux pat rest 0
      (c :: pr.1, pr.2)

/-- Python str.split with no argument: split on runs of whitespace, with no
empty fields.  The accumulator holds the current field reversed. -/
def pySplitAux : List Char → List Char → List (List Char)
  | [], acc => if acc.isEmpty then [] else [acc.reverse]
  | c :: rest, acc =>
    if isPySpace c then
      if acc.isEmpty then pySplitAux rest [] else acc.reverse :: pySplitAux rest []
    else pySplitAux rest (c :: acc)

/-- Python str.split with no argument. -/
def pySplit (s : String) : List String :=
  (pySplitAux s.data []).map (fun cs => ⟨cs⟩)

/-- Python sep.join on character lists. -/
def joinWithL (sep : List Char) : List (List Char) → List Char
  | [] => []
  | [t] => t
  | t :: ts => t ++ sep ++ joinWithL sep ts

/-- Python sep.join. -/
def strJoinWith (sep : String) (l : List String) : String :=
  ⟨joinWithL sep.data (l.map String.data)⟩

/-- Digit tail of the Python int literal grammar: ASCII digits optionally
separated by single underscores.  acc is the value read so far. -/
def parseDigitsCore : List Char → Nat → Option Nat
  | [], acc => some acc
  | '_' :: rest, acc =>
    match rest with
    | [] => none
    | d :: rest2 =>
      if d.isDigit then parseDigitsCore rest2 (acc * 10 + (d.toNat - 48)) else none
  | d :: rest, acc =>
    if d.isDigit then parseDigitsCore rest (acc * 10 + (d.toNat - 48)) else none

/-- Nonempty digit group with single interior underscores. -/
def parseDigits : List Char → Option Nat
  | [] => none
  | d :: rest => if d.isDigit then parseDigitsCore rest (d.toNat - 48) else none

/-- Python int applied to a whitespace-free token (the only shape the bot
passes it): optional sign, ASCII digits, single underscores between digits. -/
def pyIntToken (s : String) : Option Int :=
  match s.data with
  | '+' :: rest => (parseDigits rest).map (fun n => (n : Int))
  | '-' :: rest => (parseDigits rest).map (fun n => -(n : Int))
  | l => (parseDigits l).map (fun n => (n : Int))

/-- Association list lookup, the embedding of Python dict.get. -/
def alLookup {K V : Type} [DecidableEq K] : List (K × V) → K → Option V
  | [], _ => none
  | (k, v) :: rest, key => if key = k then some v else alLookup rest key

/-- Association list update, the embedding of Python dict assignment. -/
def alInsert {K V : Type} [DecidableEq K] : List (K × V) → K → V → List (K × V)
  | [], key, val => [(key, val)]
  | (k, v) :: rest, key, val =>
    if key = k then (key, val) :: rest else (k, v) :: alInsert rest key val

/-- Association list removal, the embedding of dict.pop. -/
def alErase {K V : Type} [DecidableEq K] : List (K × V) → K → List (K × V)
  | [], _ => []
  | (k, v) :: rest, key => if key = k then rest else (k, v) :: alErase rest key

/-- Replace every occurrence of one character by its backslash-escaped copy. -/
def escChar (c : Char) : List Char → List Char
  | [] => []
  | x :: xs => if x == c then '\\' :: c :: escChar c xs else x :: escChar c xs

/-- escape_markdown from the source: sequentially replace each character of
the replacement table by a backslash-escaped copy. -/
def escape_markdown (text : String) : String :=
  if text = "" then text
  else ⟨['\\', '*', '_', '[', ']', '(', ')', '\x60'].foldl (fun l c => escChar c l) text.data⟩

/-- One stored history turn. -/
structure HistEntry where
  role : String
  content : String
deriving DecidableEq, Repr

/-- The global chat_history dictionary. -/
abbrev HistMap : Type := List (Option Int × List HistEntry)

/-- The four per-chat global dictionaries of the source module.  Keys are
Option Int because the source indexes them with values extracted by
dict.get, which may be missing. -/
structure BotState where
  chat_mute_until : List (Option Int × Rat)
  chat_mood : List (Option Int × String)
  chat_auto_reply_mode : List (Option Int × String)
  chat_history : HistMap
deriving DecidableEq, Repr

/-- The environment-derived module constants. -/
structure BotConfig where
  BOT_USERNAME : String
  BOT_USER_ID : Option Int
  CHAT_HISTORY_LENGTH : Nat
  GROQ_API_KEY : Bool
  BOT_START_TIME : Rat
deriving DecidableEq, Repr

/-- The relevant fields of a Telegram user object. -/
structure FromUser where
  is_bot : Bool
  id : Option Int
  username : Option String
  first_name : Option String
deriving DecidableEq, Repr

/-- The relevant fields of a Telegram message object. -/
structure TelegramMessage where
  text : Option String
  from_user : Option FromUser
  chat_id : Option Int
  message_id : Option Int
  reply_to_from : Option FromUser
deriving DecidableEq, Repr

/-- A Telegram update. -/
structure TgUpdate where
  message : Option TelegramMessage
deriving DecidableEq, Repr

/-- The components of datetime.now() the local intent resolver reads.
weekday follows the Python convention, Monday = 0. -/
structure LocalTime where
  hour : Nat
  minute : Nat
  day : Nat
  month : Nat
  year : Nat
  weekday : Nat
deriving DecidableEq, Repr

/-- The message object inside a Groq completion choice. -/
structure GroqMsgJson where
  content : Option String
deriving DecidableEq, Repr

/-- One Groq completion choice. -/
structure GroqChoiceJson where
  message : Option GroqMsgJson
deriving DecidableEq, Repr

/-- The decoded Groq response body. -/
structure GroqRespJson where
  choices : Option (List GroqChoiceJson)
deriving DecidableEq, Repr

/-- Oracle for the one network exchange of get_groq_response.  malformed
stands for any response whose shape raises during extraction (for example a
non-string content field); the source absorbs that exception. -/
inductive GroqNet where
  | timeout
  | requestError
  | otherError
  | malformed
  | ok (data : GroqRespJson)
deriving DecidableEq, Repr

/-- Outcome of the decision chain for one incoming update.  noAction and
muted send nothing; every other variant carries the reply text sent. -/
inductive ReplyDecision where
  | noAction
  | mentionPing (text : String)
  | commandResult (text : String)
  | muted
  | localIntent (text : String)
  | remoteReply (text : String)
  | fallback (text : String)
deriving DecidableEq, Repr

/-- The fixed canned fallback messages. -/
def FALLBACK_MESSAGES : List String :=
  ["Haha nghe vui à nha 😆",
   "Ủa gì zợ? 😂 kể nghe coi",
   "Bot xỉu ngang 🤣",
   "Ghê zợ ông bạn 😜",
   "Cái này coi bộ căng à nha 😆",
   "Cười chết mệ 😂",
   "Đó là một trò đùa tuyệt vời!",
   "Hahahaha, bạn làm tôi cười 🤣",
   "Quá hài hước rồi!",
   "Đừng làm tôi cười nữa, bụng đau rồi 😆",
   "Ơi hay quá, hay quá!",
   "Bạn thật là một người hài hước 😄",
   "Mình thích điều đó! 👍",
   "Hehe, bạn biết cách làm vui lòng người ta 😉"]

/-- The base system prompt. -/
def SYSTEM_PROMPT : String :=
  "Bạn là bot chat vui vẻ trong group. Trả lời ngắn gọn, vui nhộn, và thân thiện. Không vượt quá 2 câu."

/-- The mood table, in source order. -/
def MOOD_TONES : List (String × String) :=
  [("vui", "Luôn vui vẻ, thân thiện, dùng nhiều emoji dễ thương."),
   ("lem_linh", "Lém lỉnh, cà khịa nhẹ, tung hứng dí dỏm nhưng không xúc phạm."),
   ("cau_gat", "Giả vờ cáu gắt, càm ràm nhưng vẫn hài hước và không quá khó chịu.")]

/-- The default mood key. -/
def DEFAULT_MOOD : String := "vui"

/-- The comma-joined mood key listing. -/
def MOOD_OPTIONS_TEXT : String := strJoinWith ", " (MOOD_TONES.map Prod.fst)

/-- Vietnamese weekday names indexed by the Python weekday (Monday = 0). -/
def VI_DAY_NAMES : List String :=
  ["Thứ Hai", "Thứ Ba", "Thứ Tư", "Thứ Năm", "Thứ Sáu", "Thứ Bảy", "Chủ Nhật"]

/-- The auto-reply mode literal for replying to everything. -/
def AUTO_REPLY_ALL : String := "all"

/-- The auto-reply mode literal for replying only to mentions and commands. -/
def AUTO_REPLY_MENTION : String := "mention"

/-- HELP_TEXT, with the mention instruction line appended only when a bot
username is configured. -/
def HELP_TEXT (cfg : BotConfig) : String :=
  "Danh sách lệnh:\n" ++
  "/alive - Kiểm tra bot còn hoạt động.\n" ++
  "/mute <phút> - Tạm im lặng trong nhóm.\n" ++
  "/help - Hiển thị các lệnh điều khiển.\n" ++
  "/mood <tên> - Đổi mood bot (" ++ MOOD_OPTIONS_TEXT ++ ").\n" ++
  "/autoreply <all|mention> - Bật tắt chế độ trả lời tất cả hay chỉ khi được nhắc.\n" ++
  (if cfg.BOT_USERNAME ≠ "" then "Nhắc @" ++ cfg.BOT_USERNAME ++ " để gọi bot xác nhận.\n" else "")

/-- get_groq_response.  The request fields are kept for the call shape, but
the network answer is the oracle; every failure arm of the source (timeout,
RequestException, and any other exception, among them the IndexError raised
by an empty choices array and the errors raised by a malformed body) yields
none, and an empty completion text also yields none. -/
def get_groq_response (message_text system_prompt : String)
    (history : List HistEntry) (net : GroqNet) : Option String :=
  match net with
  | .timeout => none
  | .requestError => none
  | .otherError => none
  | .malformed => none
  | .ok data =>
    match data.choices.getD [⟨none⟩] with
    | [] => none
    | choice :: _ =>
      let reply := pyStripStr (((choice.message.getD ⟨none⟩).content).getD "")
      if reply = "" then none else some reply

/-- random.choice over FALLBACK_MESSAGES, with the random draw exposed as an
index reduced modulo the list length. -/
def get_fallback_message (i : Nat) : String :=
  FALLBACK_MESSAGES.getD (i % FALLBACK_MESSAGES.length) ""

/-- get_chat_mood. -/
def get_chat_mood (st : BotState) (chat_id : Option Int) : String :=
  (alLookup st.chat_mood chat_id).getD DEFAULT_MOOD

/-- set_chat_mood. -/
def set_chat_mood (st : BotState) (chat_id : Option Int) (mood : String) : BotState :=
  { st with chat_mood := alInsert st.chat_mood chat_id mood }

/-- build_system_prompt. -/
def build_system_prompt (st : BotState) (chat_id : Option Int) : String :=
  SYSTEM_PROMPT ++ "\nMood hiện tại: " ++
    ((alLookup MOOD_TONES (get_chat_mood st chat_id)).getD
      ((alLookup MOOD_TONES DEFAULT_MOOD).getD ""))

/-- get_auto_reply_mode. -/
def get_auto_reply_mode (st : BotState) (chat_id : Option Int) : String :=
  (alLookup st.chat_auto_reply_mode chat_id).getD AUTO_REPLY_ALL

/-- set_auto_reply_mode. -/
def set_auto_reply_mode (st : BotState) (chat_id : Option Int) (mode : String) : BotState :=
  { st with chat_auto_reply_mode := alInsert st.chat_auto_reply_mode chat_id mode }

/-- append_chat_history_entry over the history dictionary, with the
configured bound H passed explicitly in place of the module global. -/
def append_chat_history_entry (H : Nat) (m : HistMap) (chat_id : Option Int)
    (role content : String) : HistMap :=
  if H = 0 ∨ content = "" then m
  else
    let history := (alLookup m chat_id).getD []
    let h2 := history ++ [⟨role, content⟩]
    alInsert m chat_id (h2.drop (h2.length - H))

/-- record_conversation_turn.  A None or empty text on either side is
skipped (Python truthiness). -/
def record_conversation_turn (H : Nat) (st : BotState) (chat_id : Option Int)
    (user_text bot_text : Option String) : BotState :=
  if H = 0 then st
  else
    let m1 := if (user_text.getD "") ≠ "" then
        append_chat_history_entry H st.chat_history chat_id "user" (user_text.getD "")
      else st.chat_history
    let m2 := if (bot_text.getD "") ≠ "" then
        append_chat_history_entry H m1 chat_id "assistant" (bot_text.getD "")
      else m1
    { st with chat_history := m2 }

/-- get_chat_history_messages: the last H stored entries. -/
def get_chat_history_messages (H : Nat) (m : HistMap) (chat_id : Option Int) : List HistEntry :=
  if H = 0 then []
  else
    let history := (alLookup m chat_id).getD []
    history.drop (history.length - H)

/-- is_chat_muted, with its lazy expiry side effect on the store.  A stored
timestamp of zero is falsy in Python and also reads as not muted. -/
def is_chat_muted (st : BotState) (chat_id : Option Int) (now : Rat) : Bool × BotState :=
  match alLookup st.chat_mute_until chat_id with
  | none => (false, st)
  | some mute_until =>
    if mute_until = 0 then (false, st)
    else if mute_until ≤ now then
      (false, { st with chat_mute_until := alErase st.chat_mute_until chat_id })
    else (true, st)

/-- set_chat_mute: store now plus sixty times the minute count. -/
def set_chat_mute (st : BotState) (chat_id : Option Int) (minutes : Int) (now : Rat) : BotState :=
  { st with chat_mute_until := alInsert st.chat_mute_until chat_id (now + ((minutes * 60 : Int) : Rat)) }

/-- Two-digit zero padding, strftime style. -/
def pad2 (n : Nat) : String := if n < 10 then "0" ++ toString n else toString n

/-- Four-digit zero padding for the year. -/
def pad4 (n : Nat) : String :=
  if n < 10 then "000" ++ toString n
  else if n < 100 then "00" ++ toString n
  else if n < 1000 then "0" ++ toString n
  else toString n

/-- The time question keywords. -/
def time_keywords : List String :=
  ["mấy giờ", "giờ mấy", "bây giờ là mấy giờ", "hiện tại mấy giờ", "giờ hiện tại"]

/-- The date and weekday question keywords. -/
def day_keywords : List String :=
  ["thứ mấy", "hôm nay là thứ", "nay là thứ", "hôm nay ngày", "ngày mấy", "ngày bao nhiêu"]

/-- strftime %d/%m/%Y. -/
def format_date (lt : LocalTime) : String :=
  pad2 lt.day ++ "/" ++ pad2 lt.month ++ "/" ++ pad4 lt.year

/-- get_local_intent_reply: deterministic time and date answers. -/
def get_local_intent_reply (lt : LocalTime) (message_text : String) : Option String :=
  if message_text = "" then none
  else
    let normalized := strLower message_text
    if time_keywords.any (fun k => strContainsSubstr k normalized) then
      some ("Bây giờ là " ++ pad2 lt.hour ++ ":" ++ pad2 lt.minute ++
        " (ngày " ++ format_date lt ++ ").")
    else if day_keywords.any (fun k => strContainsSubstr k normalized) then
      some ("Hôm nay " ++ VI_DAY_NAMES.getD lt.weekday "" ++ ", ngày " ++ format_date lt)
    else none

/-- extract_text_without_mention.  BOT_MENTION_PATTERN is the literal
"@" followed by the username, matched case-insensitively; it exists only
when the username is nonempty. -/
def extract_text_without_mention (username : String) (text : String) : String × Bool :=
  if text = "" ∨ username = "" then (pyStripStr text, false)
  else
    let pr := subnAux ('@' :: username.data) text.data 0
    (pyStripStr ⟨pr.1⟩, decide (0 < pr.2))

/-- The command token of the first word: lowered, with an @-addressing
suffix stripped when present. -/
def command_token (p0 : String) : String :=
  let c := strLower p0
  if strContainsChar c '@' then ⟨c.data.takeWhile (fun x => x ≠ '@')⟩ else c

/-- Replace each space by an underscore, Python str.replace with a
single-character pattern. -/
def strReplaceSpaces (s : String) : String :=
  ⟨s.data.map (fun c => if c = ' ' then '_' else c)⟩

/-- The normalized mood key computed from the argument words. -/
def mood_key_of (args : List String) : String :=
  strReplaceSpaces (strLower (pyStripStr (strJoinWith " " args)))

/-- Python int() on a real number truncates toward zero. -/
def pyIntTrunc (q : Rat) : Int := if q < 0 then -((-q).floor) else q.floor

/-- handle_command: the slash-command router.  Returns the optional response
text and the possibly mutated store. -/
def handle_command (cfg : BotConfig) (st : BotState) (message_text : String)
    (chat_id : Option Int) (now : Rat) : Option String × BotState :=
  let text := pyStripStr message_text
  if strStartsWith text "/" = false then (none, st)
  else
    match pySplit text with
    | [] => (none, st)
    | p0 :: rest =>
      let command := command_token p0
      if command = "/alive" then
        let uptime_seconds := pyIntTrunc (now - cfg.BOT_START_TIME)
        let uptime_display :=
          if uptime_seconds < 60 then toString uptime_seconds ++ " giây"
          else toString (uptime_seconds.fdiv 60) ++ " phút"
        (some ("Bot vẫn sống khỏe (" ++ uptime_display ++ "). Groq " ++
          (if cfg.GROQ_API_KEY then "đã sẵn sàng" else "chưa có GROQ_API_KEY") ++ "."), st)
      else if command = "/help" ∨ command = "/start" then
        (some (pyStripStr (HELP_TEXT cfg)), st)
      else if command = "/mute" then
        match rest with
        | [] => (some "Đã im lặng trong 10 phút.", set_chat_mute st chat_id 10 now)
        | arg :: _ =>
          match pyIntToken arg with
          | none => (some "Vui lòng nhập số phút hợp lệ, ví dụ /mute 10.", st)
          | some minutes =>
            if minutes ≤ 0 then (some "Số phút phải lớn hơn 0.", st)
            else (some ("Đã im lặng trong " ++ toString minutes ++ " phút."),
                  set_chat_mute st chat_id minutes now)
      else if command = "/mood" then
        match rest with
        | [] =>
          (some ("Mood hiện tại: " ++ get_chat_mood st chat_id ++
            ". Mood khả dụng: " ++ MOOD_OPTIONS_TEXT ++ "."), st)
        | _ :: _ =>
          let mood_key := mood_key_of rest
          match alLookup MOOD_TONES mood_key with
          | none => (some ("Mood không hợp lệ. Chọn một trong: " ++ MOOD_OPTIONS_TEXT ++ "."), st)
          | some tone =>
            (some ("Đã chuyển mood sang " ++ mood_key ++ ". " ++ tone),
             set_chat_mood st chat_id mood_key)
      else if command = "/autoreply" then
        match rest with
        | [] =>
          (some ("Auto-reply hiện tại: " ++ get_auto_reply_mode st chat_id ++ " (all/mention)."), st)
        | arg :: _ =>
          let mode := strLower arg
          if mode = AUTO_REPLY_ALL ∨ mode = AUTO_REPLY_MENTION then
            (some (if mode = AUTO_REPLY_ALL then "Bot sẽ trả lời tất cả tin nhắn văn bản."
                   else "Bot sẽ chỉ trả lời khi được nhắc tên hoặc lệnh."),
             set_auto_reply_mode st chat_id mode)
          else (some "Chỉ chấp nhận \x27all\x27 hoặc \x27mention\x27. Ví dụ: /autoreply mention", st)
      else (none, st)

/-- Truthiness of an optional integer field (a missing field and the id
zero are both falsy in the validation check of the source). -/
def optIntTruthy : Option Int → Bool
  | some n => n != 0
  | none => false

/-- bool(BOT_USER_ID and reply_to_user.get(id) == BOT_USER_ID). -/
def is_reply_to_bot_flag (cfg : BotConfig) (reply_from_id : Option Int) : Bool :=
  match cfg.BOT_USER_ID with
  | none => false
  | some b => b != 0 && reply_from_id == some b

/-- The tail of process_message from the required-fields validation on:
reply-to-bot quick reply, command routing, mute check, local intent,
remote call and fallback, each recording its history turn. -/
def process_core (cfg : BotConfig) (st : BotState) (message : TelegramMessage)
    (original_text message_text : String) (now : Rat) (lt : LocalTime)
    (net : GroqNet) (fallback_index : Nat) : ReplyDecision × BotState :=
  let chat_id := message.chat_id
  let is_reply_to_bot := is_reply_to_bot_flag cfg (message.reply_to_from.bind FromUser.id)
  if ¬ (optIntTruthy chat_id = true ∧ optIntTruthy message.message_id = true ∧
        optIntTruthy (message.from_user.bind FromUser.id) = true ∧ message_text ≠ "") then
    (.noAction, st)
  else if is_reply_to_bot = true ∧ pyStripStr original_text = "" then
    (.mentionPing "Có mặt! Bạn cần gì nè?",
     record_conversation_turn cfg.CHAT_HISTORY_LENGTH st chat_id
       (some (pyStripStr original_text)) (some "Có mặt! Bạn cần gì nè?"))
  else
    let cr := handle_command cfg st message_text chat_id now
    if (cr.1.getD "") ≠ "" then
      (.commandResult (cr.1.getD ""),
       record_conversation_turn cfg.CHAT_HISTORY_LENGTH cr.2 chat_id
         (some message_text) (some (cr.1.getD "")))
    else
      let mu := is_chat_muted cr.2 chat_id now
      if mu.1 = true then (.muted, mu.2)
      else
        let local_reply := get_local_intent_reply lt message_text
        if (local_reply.getD "") ≠ "" then
          (.localIntent (local_reply.getD ""),
           record_conversation_turn cfg.CHAT_HISTORY_LENGTH mu.2 chat_id
             (some message_text) (some (local_reply.getD "")))
        else
          let ai := get_groq_response message_text (build_system_prompt mu.2 chat_id)
            (get_chat_history_messages cfg.CHAT_HISTORY_LENGTH mu.2.chat_history chat_id) net
          if (ai.getD "") ≠ "" then
            (.remoteReply (ai.getD ""),
             record_conversation_turn cfg.CHAT_HISTORY_LENGTH mu.2 chat_id
               (some message_text) (some (ai.getD "")))
          else
            (.fallback (get_fallback_message fallback_index),
             record_conversation_turn cfg.CHAT_HISTORY_LENGTH mu.2 chat_id
               (some message_text) (some (get_fallback_message fallback_index)))

/-- process_message after the non-text and sender-is-bot rejections:
mention extraction, the empty-mention quick reply, and the mention-only
mode filter, before handing over to process_core. -/
def process_text_message (cfg : BotConfig) (st : BotState) (message : TelegramMessage)
    (original_text : String) (now : Rat) (lt : LocalTime) (net : GroqNet)
    (fallback_index : Nat) : ReplyDecision × BotState :=
  let message_text := pyStripStr original_text
  let pr := extract_text_without_mention cfg.BOT_USERNAME original_text
  let auto_reply_mode := get_auto_reply_mode st message.chat_id
  if pr.2 = true then
    if pr.1 = "" then
      let user_entry :=
        if pyStripStr original_text ≠ "" then pyStripStr original_text
        else if cfg.BOT_USERNAME ≠ "" then "@" ++ cfg.BOT_USERNAME
        else pyStripStr original_text
      (.mentionPing "Có mặt! Bạn cần gì nè?",
       record_conversation_turn cfg.CHAT_HISTORY_LENGTH st message.chat_id
         (some user_entry) (some "Có mặt! Bạn cần gì nè?"))
    else process_core cfg st message original_text pr.1 now lt net fallback_index
  else if auto_reply_mode = AUTO_REPLY_MENTION ∧ strStartsWith message_text "/" = false then
    (.noAction, st)
  else process_core cfg st message original_text message_text now lt net fallback_index

/-- process_message: the full decision chain for one update. -/
def process_message (cfg : BotConfig) (st : BotState) (update : TgUpdate) (now : Rat)
    (lt : LocalTime) (net : GroqNet) (fallback_index : Nat) : ReplyDecision × BotState :=
  match update.message with
  | none => (.noAction, st)
  | some message =>
    match message.text with
    | none => (.noAction, st)
    | some original_text =>
      if (message.from_user.map FromUser.is_bot).getD false = true then (.noAction, st)
      else process_text_message cfg st message original_text now lt net fallback_index

/-- The per-chat history view of the store. -/
def history_of (m : HistMap) (chat_id : Option Int) : List HistEntry :=
  (alLookup m chat_id).getD []

/-- A whole run of history appends starting from the empty store. -/
def run_appends (H : Nat) (ops : List (Option Int × String × String)) : HistMap :=
  ops.foldl (fun m op => append_chat_history_entry H m op.1 op.2.1 op.2.2) []

/-- Spec-side predicate for the whitespace-collapsed wording of the
extractor contract: a collapsed text has no two adjacent whitespace
characters. -/
def no_adjacent_ws : List Char → Bool
  | c1 :: c2 :: rest => !(isPySpace c1 && isPySpace c2) && no_adjacent_ws (c2 :: rest)
  | _ => true

/-- The empty store at process start. -/
def empty_state : BotState := ⟨[], [], [], []⟩

/-- A concrete configuration used by the closed scenario theorems. -/
def demo_config : BotConfig :=
  { BOT_USERNAME := "funbot", BOT_USER_ID := some 999, CHAT_HISTORY_LENGTH := 5,
    GROQ_API_KEY := true, BOT_START_TIME := 0 }

/-- A concrete wall-clock reading used by the closed scenario theorems. -/
def demo_time : LocalTime := ⟨9, 30, 11, 10, 2026, 6⟩

/-- A concrete human sender. -/
def human_user : FromUser := ⟨false, some 7, some "alice", none⟩

/-- The bot itself as a message author (for reply_to_message.from). -/
def bot_from : FromUser := ⟨true, some 999, some "funbot", none⟩

/-! Association list laws used by the state operations. -/

theorem alLookup_alInsert_self {K V : Type} [DecidableEq K]
    (m : List (K × V)) (k : K) (v : V) : alLookup (alInsert m k v) k = some v := by
  induction m with
  | nil => simp [alInsert, alLookup]
  | cons p rest ih =>
    obtain ⟨k0, v0⟩ := p
    by_cases h : k = k0
    · simp [alInsert, h, alLookup]
    · simp [alInsert, h, alLookup, ih]

theorem alLookup_alInsert_ne {K V : Type} [DecidableEq K]
    (m : List (K × V)) (k k2 : K) (v : V) (h : k2 ≠ k) :
    alLookup (alInsert m k v) k2 = alLookup m k2 := by
  induction m with
  | nil => simp [alInsert, alLookup, h]
  | cons p rest ih =>
    obtain ⟨k0, v0⟩ := p
    by_cases hk : k = k0
    · subst hk
      simp [alInsert, alLookup, h]
    · by_cases hk2 : k2 = k0
      · simp [alInsert, hk, alLookup, hk2]
      · simp [alInsert, hk, alLookup, hk2, ih]

theorem alInsert_of_lookup_eq {K V : Type} [DecidableEq K]
    (m : List (K × V)) (k : K) (v : V) (h : alLookup m k = some v) :
    alInsert m k v = m := by
  induction m with
  | nil => simp [alLookup] at h
  | cons p rest ih =>
    obtain ⟨k0, v0⟩ := p
    by_cases hk : k = k0
    · subst hk
      simp [alLookup] at h
      simp [alInsert, h]
    · simp [alLookup, hk] at h
      simp [alInsert, hk, ih h]

/-! The fallback pool. -/

theorem getD_mem_of_lt (l : List String) (i : Nat) (h : i < l.length) :
    l.getD i "" ∈ l := by
  induction l generalizing i with
  | nil => simp at h
  | cons a t ih =>
    cases i with
    | zero => simp
    | succ n =>
      simp only [List.getD_cons_succ]
      exact List.mem_cons_of_mem a (ih n (by simpa using h))

theorem get_fallback_message_mem (i : Nat) : get_fallback_message i ∈ FALLBACK_MESSAGES :=
  getD_mem_of_lt FALLBACK_MESSAGES (i % FALLBACK_MESSAGES.length)
    (Nat.mod_lt i (by decide))

/-- C1: the spec promises that a direct reply to a bot-authored message
whose raw text is entirely empty (here a single space, no mention) yields
the MentionPing reply.  Evaluating the decision chain at exactly such an
update shows the code instead produces NoAction: the required-fields
validation rejects the empty stripped text before the reply-to-bot quick
reply is ever reached, leaving that branch dead. -/
theorem C1_reply_to_bot_empty_text_is_noAction :
    process_message demo_config empty_state
      ⟨some { text := some " ", from_user := some human_user, chat_id := some 5,
              message_id := some 3, reply_to_from := some bot_from }⟩
      100 demo_time .timeout 0 = (.noAction, empty_state) := by
  rfl

/-- C6: an update whose sender has the is_bot flag set produces NoAction
and leaves the whole store untouched, whatever the configuration, state,
clock, network oracle and random draw. -/
theorem C6_bot_sender_is_noAction (cfg : BotConfig) (st : BotState) (u : TgUpdate)
    (now : Rat) (lt : LocalTime) (net : GroqNet) (fi : Nat) (m : TelegramMessage)
    (hm : u.message = some m)
    (hb : (m.from_user.map FromUser.is_bot).getD false = true) :
    process_message cfg st u now lt net fi = (.noAction, st) := by
  unfold process_message
  rw [hm]
  cases ht : m.text with
  | none => simp [ht]
  | some t => simp [ht, hb]

/-- C6 witness: a concrete bot-authored text message is dropped. -/
theorem C6_witness :
    process_message demo_config empty_state
      ⟨some { text := some "hi", from_user := some bot_from, chat_id := some 5,
              message_id := some 3, reply_to_from := none }⟩
      0 demo_time .timeout 0 = (.noAction, empty_state) :=
  C6_bot_sender_is_noAction demo_config empty_state _ 0 demo_time .timeout 0 _ rfl rfl

/-- C4: whenever the mention extractor reports a mention with empty
residual text, the decision is MentionPing — for every stored auto-reply
mode and every mute state, since the ping branch runs before both the
mention-only filter and the mute check. -/
theorem C4_mention_empty_residual_is_ping (cfg : BotConfig) (st : BotState)
    (u : TgUpdate) (now : Rat) (lt : LocalTime) (net : GroqNet) (fi : Nat)
    (m : TelegramMessage) (t : String)
    (hm : u.message = some m) (ht : m.text = some t)
    (hb : (m.from_user.map FromUser.is_bot).getD false = false)
    (hx : extract_text_without_mention cfg.BOT_USERNAME t = ("", true)) :
    (process_message cfg st u now lt net fi).1 = .mentionPing "Có mặt! Bạn cần gì nè?" := by
  unfold process_message
  rw [hm]
  simp [ht, hb, process_text_message, hx]

/-- C4 witness: a bare mention, in a chat whose stored mode is mention-only
and which is muted far into the future, still gets the ping. -/
theorem C4_witness :
    (0 : Rat) < 100000 ∧
    (process_message demo_config
      ⟨[(some 5, 100000)], [], [(some 5, "mention")], []⟩
      ⟨some { text := some "@FunBot", from_user := some human_user, chat_id := some 5,
              message_id := some 3, reply_to_from := none }⟩
      7 demo_time .timeout 1).1 = .mentionPing "Có mặt! Bạn cần gì nè?" :=
  ⟨by norm_num,
   C4_mention_empty_residual_is_ping demo_config
    ⟨[(some 5, 100000)], [], [(some 5, "mention")], []⟩
    ⟨some { text := some "@FunBot", from_user := some human_user, chat_id := some 5,
            message_id := some 3, reply_to_from := none }⟩
    7 demo_time .timeout 1 _ "@FunBot" rfl rfl rfl (by decide)⟩

/-- C5: the remote client absorbs every failure.  A timeout, a transport
or HTTP error, any malformed body (including an empty choices array, whose
IndexError the blanket except absorbs), and an empty completion text all
yield none, while a completion whose trimmed text is nonempty yields
exactly that trimmed text. -/
theorem C5_groq_client_contract :
    (∀ a b h, get_groq_response a b h .timeout = none ∧
      get_groq_response a b h .requestError = none ∧
      get_groq_response a b h .otherError = none ∧
      get_groq_response a b h .malformed = none) ∧
    (∀ a b h d, d.choices = some [] → get_groq_response a b h (.ok d) = none) ∧
    (∀ a b h (d : GroqRespJson) c rest msg s, d.choices = some (c :: rest) →
      c.message = some msg → msg.content = some s → pyStripStr s = "" →
      get_groq_response a b h (.ok d) = none) ∧
    (∀ a b h (d : GroqRespJson) c rest msg s, d.choices = some (c :: rest) →
      c.message = some msg → msg.content = some s → pyStripStr s ≠ "" →
      get_groq_response a b h (.ok d) = some (pyStripStr s)) := by
  refine ⟨fun a b h => ⟨rfl, rfl, rfl, rfl⟩, ?_, ?_, ?_⟩
  · intro a b h d hd
    simp [get_groq_response, hd]
  · intro a b h d c rest msg s hd hc hs hempty
    simp [get_groq_response, hd, hc, hs, hempty]
  · intro a b h d c rest msg s hd hc hs hne
    simp [get_groq_response, hd, hc, hs, hne]

/-- C5 witness: the contract applied at concrete inputs, one instance per
hypothesis-bearing conjunct. -/
theorem C5_witness :
    (get_groq_response "x" "y" [] .timeout = none ∧
      get_groq_response "x" "y" [] .requestError = none ∧
      get_groq_response "x" "y" [] .otherError = none ∧
      get_groq_response "x" "y" [] .malformed = none) ∧
    get_groq_response "x" "y" [] (.ok ⟨some []⟩) = none ∧
    get_groq_response "x" "y" [] (.ok ⟨some [⟨some ⟨some "  "⟩⟩]⟩) = none ∧
    get_groq_response "x" "y" [] (.ok ⟨some [⟨some ⟨some " hi "⟩⟩]⟩) = some (pyStripStr " hi ") :=
  ⟨C5_groq_client_contract.1 "x" "y" [],
   C5_groq_client_contract.2.1 "x" "y" [] ⟨some []⟩ rfl,
   C5_groq_client_contract.2.2.1 "x" "y" [] ⟨some [⟨some ⟨some "  "⟩⟩]⟩ ⟨some ⟨some "  "⟩⟩ []
     ⟨some "  "⟩ "  " rfl rfl rfl (by decide),
   C5_groq_client_contract.2.2.2 "x" "y" [] ⟨some [⟨some ⟨some " hi "⟩⟩]⟩ ⟨some ⟨some " hi "⟩⟩ []
     ⟨some " hi "⟩ " hi " rfl rfl rfl (by decide)⟩

/-- The first word of a mute invocation routes to the mute branch. -/
theorem command_token_mute : command_token "/mute" = "/mute" := by decide

/-- C2: a mute invocation whose argument parses to a nonpositive integer
answers with the nonpositive-minutes validation error and leaves the store
(its mute map included) exactly as it was; an argument that is not an
integer answers with the distinct parse validation error, again leaving
the store unchanged; the two error strings differ; and an omitted argument
defaults to ten minutes, muting until now plus 600 seconds. -/
theorem C2_mute_validation :
    (∀ (cfg : BotConfig) (st : BotState) (cid : Option Int) (now : Rat)
        (text arg : String) (m : Int) (rest : List String),
      strStartsWith (pyStripStr text) "/" = true →
      pySplit (pyStripStr text) = "/mute" :: arg :: rest →
      pyIntToken arg = some m → m ≤ 0 →
      handle_command cfg st text cid now = (some "Số phút phải lớn hơn 0.", st)) ∧
    (∀ (cfg : BotConfig) (st : BotState) (cid : Option Int) (now : Rat)
        (text arg : String) (rest : List String),
      strStartsWith (pyStripStr text) "/" = true →
      pySplit (pyStripStr text) = "/mute" :: arg :: rest →
      pyIntToken arg = none →
      handle_command cfg st text cid now = (some "Vui lòng nhập số phút hợp lệ, ví dụ /mute 10.", st)) ∧
    ("Số phút phải lớn hơn 0." ≠ "Vui lòng nhập số phút hợp lệ, ví dụ /mute 10.") ∧
    (∀ (cfg : BotConfig) (st : BotState) (cid : Option Int) (now : Rat),
      handle_command cfg st "/mute" cid now =
        (some "Đã im lặng trong 10 phút.", set_chat_mute st cid 10 now)) := by
  refine ⟨?_, ?_, by decide, ?_⟩
  · intro cfg st cid now text arg m rest hstart hsplit hparse hm
    simp [handle_command, hstart, hsplit, command_token_mute, hparse, hm]
  · intro cfg st cid now text arg rest hstart hsplit hparse
    simp [handle_command, hstart, hsplit, command_token_mute, hparse]
  · intro cfg st cid now
    have h1 : strStartsWith (pyStripStr "/mute") "/" = true := by decide
    have h2 : pySplit (pyStripStr "/mute") = ["/mute"] := by decide
    simp [handle_command, h1, h2, command_token_mute]

/-- C2 witness: the three mute contracts at concrete invocations. -/
theorem C2_witness :
    handle_command demo_config empty_state "/mute 0" (some 5) 100 =
      (some "Số phút phải lớn hơn 0.", empty_state) ∧
    handle_command demo_config empty_state "/mute abc" (some 5) 100 =
      (some "Vui lòng nhập số phút hợp lệ, ví dụ /mute 10.", empty_state) ∧
    handle_command demo_config empty_state "/mute" (some 5) 100 =
      (some "Đã im lặng trong 10 phút.", set_chat_mute empty_state (some 5) 10 100) :=
  ⟨C2_mute_validation.1 demo_config empty_state (some 5) 100 "/mute 0" "0" 0 []
      (by decide) (by decide) (by decide) (by decide),
   C2_mute_validation.2.1 demo_config empty_state (some 5) 100 "/mute abc" "abc" []
      (by decide) (by decide) (by decide),
   C2_mute_validation.2.2.2 demo_config empty_state (some 5) 100⟩

/-- The first word of a mood invocation routes to the mood branch. -/
theorem command_token_mood : command_token "/mood" = "/mood" := by decide

/-- C7: setting the mood with an argument whose normalized key (joined,
trimmed, lowered, spaces replaced by underscores) is not in the mood table
answers with the error listing the valid moods and leaves the store
unchanged; a recognized key is persisted with its confirmation text, a
subsequent bare mood query on the updated store reports that key, and
repeating the same set command returns the same confirmation and the same
store. -/
theorem C7_mood_set_contract :
    (∀ (cfg : BotConfig) (st : BotState) (cid : Option Int) (now : Rat)
        (text : String) (args : List String),
      strStartsWith (pyStripStr text) "/" = true →
      pySplit (pyStripStr text) = "/mood" :: args → args ≠ [] →
      alLookup MOOD_TONES (mood_key_of args) = none →
      handle_command cfg st text cid now =
        (some ("Mood không hợp lệ. Chọn một trong: " ++ MOOD_OPTIONS_TEXT ++ "."), st)) ∧
    (∀ (cfg : BotConfig) (st : BotState) (cid : Option Int) (now : Rat)
        (text : String) (args : List String) (tone : String),
      strStartsWith (pyStripStr text) "/" = true →
      pySplit (pyStripStr text) = "/mood" :: args → args ≠ [] →
      alLookup MOOD_TONES (mood_key_of args) = some tone →
      handle_command cfg st text cid now =
        (some ("Đã chuyển mood sang " ++ mood_key_of args ++ ". " ++ tone),
         set_chat_mood st cid (mood_key_of args))) ∧
    (∀ (cfg : BotConfig) (st : BotState) (cid : Option Int) (now : Rat) (key : String),
      handle_command cfg (set_chat_mood st cid key) "/mood" cid now =
        (some ("Mood hiện tại: " ++ key ++ ". Mood khả dụng: " ++ MOOD_OPTIONS_TEXT ++ "."),
         set_chat_mood st cid key)) ∧
    (∀ (cfg : BotConfig) (st : BotState) (cid : Option Int) (now : Rat)
        (text : String) (args : List String) (tone : String),
      strStartsWith (pyStripStr text) "/" = true →
      pySplit (pyStripStr text) = "/mood" :: args → args ≠ [] →
      alLookup MOOD_TONES (mood_key_of args) = some tone →
      handle_command cfg (set_chat_mood st cid (mood_key_of args)) text cid now =
        (some ("Đã chuyển mood sang " ++ mood_key_of args ++ ". " ++ tone),
         set_chat_mood st cid (mood_key_of args))) := by
  refine ⟨?_, ?_, ?_, ?_⟩
  · intro cfg st cid now text args hstart hsplit hne hkey
    obtain ⟨a0, args2, rfl⟩ := List.exists_cons_of_ne_nil hne
    simp [handle_command, hstart, hsplit, command_token_mood, hkey]
  · intro cfg st cid now text args tone hstart hsplit hne hkey
    obtain ⟨a0, args2, rfl⟩ := List.exists_cons_of_ne_nil hne
    simp [handle_command, hstart, hsplit, command_token_mood, hkey]
  · intro cfg st cid now key
    have h1 : strStartsWith (pyStripStr "/mood") "/" = true := by decide
    have h2 : pySplit (pyStripStr "/mood") = ["/mood"] := by decide
    simp [handle_command, h1, h2, command_token_mood, get_chat_mood, set_chat_mood,
      alLookup_alInsert_self]
  · intro cfg st cid now text args tone hstart hsplit hne hkey
    have hidem : set_chat_mood (set_chat_mood st cid (mood_key_of args)) cid (mood_key_of args) =
        set_chat_mood st cid (mood_key_of args) := by
      simp only [set_chat_mood]
      have := alInsert_of_lookup_eq (alInsert st.chat_mood cid (mood_key_of args)) cid
        (mood_key_of args) (alLookup_alInsert_self st.chat_mood cid (mood_key_of args))
      simp [this]
    obtain ⟨a0, args2, rfl⟩ := List.exists_cons_of_ne_nil hne
    simp only [handle_command, hstart, hsplit]
    simp [command_token_mood, hkey]
    simpa using hidem

/-- C7 witness: the four mood contracts at concrete invocations, among
them a two-word argument exercising the space-to-underscore and
case-insensitive normalization. -/
theorem C7_witness :
    handle_command demo_config empty_state "/mood xyz" (some 5) 100 =
      (some ("Mood không hợp lệ. Chọn một trong: " ++ MOOD_OPTIONS_TEXT ++ "."), empty_state) ∧
    handle_command demo_config empty_state "/mood LEM Linh" (some 5) 100 =
      (some ("Đã chuyển mood sang " ++ mood_key_of ["LEM", "Linh"] ++ ". " ++
        "Lém lỉnh, cà khịa nhẹ, tung hứng dí dỏm nhưng không xúc phạm."),
       set_chat_mood empty_state (some 5) (mood_key_of ["LEM", "Linh"])) ∧
    handle_command demo_config (set_chat_mood empty_state (some 5) "cau_gat") "/mood" (some 5) 100 =
      (some ("Mood hiện tại: cau_gat. Mood khả dụng: " ++ MOOD_OPTIONS_TEXT ++ "."),
       set_chat_mood empty_state (some 5) "cau_gat") ∧
    handle_command demo_config (set_chat_mood empty_state (some 5) (mood_key_of ["LEM", "Linh"]))
        "/mood LEM Linh" (some 5) 100 =
      (some ("Đã chuyển mood sang " ++ mood_key_of ["LEM", "Linh"] ++ ". " ++
        "Lém lỉnh, cà khịa nhẹ, tung hứng dí dỏm nhưng không xúc phạm."),
       set_chat_mood empty_state (some 5) (mood_key_of ["LEM", "Linh"])) :=
  ⟨C7_mood_set_contract.1 demo_config empty_state (some 5) 100 "/mood xyz" ["xyz"]
      (by decide) (by decide) (by decide) (by decide),
   C7_mood_set_contract.2.1 demo_config empty_state (some 5) 100 "/mood LEM Linh" ["LEM", "Linh"]
      "Lém lỉnh, cà khịa nhẹ, tung hứng dí dỏm nhưng không xúc phạm."
      (by decide) (by decide) (by decide) (by decide),
   C7_mood_set_contract.2.2.1 demo_config empty_state (some 5) 100 "cau_gat",
   C7_mood_set_contract.2.2.2 demo_config empty_state (some 5) 100 "/mood LEM Linh" ["LEM", "Linh"]
      "Lém lỉnh, cà khịa nhẹ, tung hứng dí dỏm nhưng không xúc phạm."
      (by decide) (by decide) (by decide) (by decide)⟩

/-- C10: a slash text whose command token (lowered, @-suffix stripped)
matches none of the six recognized commands is not handled — the router
answers none and touches nothing — and, in a mention-only chat, such a
text passes the command-only filter and still reaches the remote call:
with the remote oracle timing out it produces a Fallback decision, and
with a successful completion it produces the RemoteReply decision. -/
theorem C10_unknown_command_falls_through :
    (∀ (cfg : BotConfig) (st : BotState) (cid : Option Int) (now : Rat)
        (text p0 : String) (rest : List String),
      strStartsWith (pyStripStr text) "/" = true →
      pySplit (pyStripStr text) = p0 :: rest →
      command_token p0 ∉ (["/alive", "/help", "/start", "/mute", "/mood", "/autoreply"] : List String) →
      handle_command cfg st text cid now = (none, st)) ∧
    (∀ fi : Nat,
      (process_message demo_config ⟨[], [], [(some 5, "mention")], []⟩
        ⟨some { text := some "/xyz 1", from_user := some human_user, chat_id := some 5,
                message_id := some 3, reply_to_from := none }⟩
        50 demo_time .timeout fi).1 = .fallback (get_fallback_message fi)) ∧
    ((process_message demo_config ⟨[], [], [(some 5, "mention")], []⟩
        ⟨some { text := some "/xyz 1", from_user := some human_user, chat_id := some 5,
                message_id := some 3, reply_to_from := none }⟩
        50 demo_time (.ok ⟨some [⟨some ⟨some "ok!"⟩⟩]⟩) 0).1 = .remoteReply "ok!") := by
  refine ⟨?_, fun fi => rfl, rfl⟩
  intro cfg st cid now text p0 rest hstart hsplit hmem
  have h1 : command_token p0 ≠ "/alive" := fun e => hmem (by simp [e])
  have h2 : command_token p0 ≠ "/help" := fun e => hmem (by simp [e])
  have h3 : command_token p0 ≠ "/start" := fun e => hmem (by simp [e])
  have h4 : command_token p0 ≠ "/mute" := fun e => hmem (by simp [e])
  have h5 : command_token p0 ≠ "/mood" := fun e => hmem (by simp [e])
  have h6 : command_token p0 ≠ "/autoreply" := fun e => hmem (by simp [e])
  simp [handle_command, hstart, hsplit, h1, h2, h3, h4, h5, h6]

/-- C10 witness: the router ignores a concrete unknown command. -/
theorem C10_witness :
    handle_command demo_config empty_state "/foo bar" (some 5) 100 = (none, empty_state) :=
  C10_unknown_command_falls_through.1 demo_config empty_state (some 5) 100 "/foo bar" "/foo"
    ["bar"] (by decide) (by decide) (by decide)

/-- One append keeps every per-chat history within the bound. -/
theorem history_of_append_le (H : Nat) (m : HistMap) (cid cid2 : Option Int)
    (r c : String) (hlen : (history_of m cid2).length ≤ H) :
    (history_of (append_chat_history_entry H m cid r c) cid2).length ≤ H := by
  unfold append_chat_history_entry
  split
  · exact hlen
  · by_cases hc : cid2 = cid
    · subst hc
      unfold history_of
      rw [alLookup_alInsert_self]
      simp only [Option.getD_some, List.length_drop]
      omega
    · unfold history_of
      rw [alLookup_alInsert_ne _ _ _ _ hc]
      exact hlen

/-- Every run of appends from the empty store respects the bound. -/
theorem run_appends_le (H : Nat) (ops : List (Option Int × String × String))
    (cid : Option Int) : (history_of (run_appends H ops) cid).length ≤ H := by
  suffices h : ∀ (ops : List (Option Int × String × String)) (m : HistMap),
      (∀ k, (history_of m k).length ≤ H) →
      ∀ k, (history_of (ops.foldl
        (fun acc op => append_chat_history_entry H acc op.1 op.2.1 op.2.2) m) k).length ≤ H by
    exact h ops [] (fun k => by simp [history_of, alLookup]) cid
  intro ops
  induction ops with
  | nil => intro m hm k; exact hm k
  | cons op rest ih =>
    intro m hm k
    exact ih (append_chat_history_entry H m op.1 op.2.1 op.2.2)
      (fun k2 => history_of_append_le H m op.1 k2 op.2.1 op.2.2 (hm k2)) k

/-- C3: per-chat history stays within the configured bound H over any run
of appends from the empty store; an append to a full history evicts
exactly the oldest entry and keeps the rest in order, filing the new entry
last; with H = 0 appending is a no-op and reading recent history gives the
empty sequence; and appending empty content is a no-op for every H. -/
theorem C3_history_bounded_fifo :
    (∀ (H : Nat) (ops : List (Option Int × String × String)) (cid : Option Int),
      (history_of (run_appends H ops) cid).length ≤ H) ∧
    (∀ (H : Nat) (m : HistMap) (cid : Option Int) (r c : String),
      H ≠ 0 → c ≠ "" → (history_of m cid).length = H →
      history_of (append_chat_history_entry H m cid r c) cid =
        (history_of m cid).drop 1 ++ [⟨r, c⟩]) ∧
    (∀ (m : HistMap) (cid : Option Int) (r c : String),
      append_chat_history_entry 0 m cid r c = m) ∧
    (∀ (m : HistMap) (cid : Option Int), get_chat_history_messages 0 m cid = []) ∧
    (∀ (H : Nat) (m : HistMap) (cid : Option Int) (r : String),
      append_chat_history_entry H m cid r "" = m) := by
  refine ⟨run_appends_le, ?_, ?_, ?_, ?_⟩
  · intro H m cid r c hH hc hfull
    unfold append_chat_history_entry
    rw [if_neg (by simp [hH, hc])]
    unfold history_of at hfull ⊢
    rw [alLookup_alInsert_self]
    simp only [Option.getD_some]
    have hlen : (((alLookup m cid).getD []) ++ [(⟨r, c⟩ : HistEntry)]).length - H = 1 := by
      simp [hfull]
    rw [hlen, List.drop_append_of_le_length (by omega)]
  · intro m cid r c
    simp [append_chat_history_entry]
  · intro m cid
    simp [get_chat_history_messages]
  · intro H m cid r
    simp [append_chat_history_entry]

/-- C3 witness: appending to a full two-slot history evicts the oldest
entry, and the bound, zero-capacity and empty-content clauses at concrete
inputs. -/
theorem C3_witness :
    (history_of (run_appends 2 [(some 1, "user", "a"), (some 1, "assistant", "b"),
      (some 1, "user", "c")]) (some 1)).length ≤ 2 ∧
    history_of (append_chat_history_entry 2 [(some 1, [⟨"user", "a"⟩, ⟨"assistant", "b"⟩])]
        (some 1) "user" "c") (some 1) =
      (history_of [(some 1, [⟨"user", "a"⟩, ⟨"assistant", "b"⟩])] (some 1)).drop 1 ++
        [⟨"user", "c"⟩] ∧
    append_chat_history_entry 0 [] (some 1) "user" "a" = [] ∧
    get_chat_history_messages 0 [] (some 1) = [] ∧
    append_chat_history_entry 3 [] (some 1) "user" "" = [] :=
  ⟨C3_history_bounded_fifo.1 2 [(some 1, "user", "a"), (some 1, "assistant", "b"),
      (some 1, "user", "c")] (some 1),
   C3_history_bounded_fifo.2.1 2 [(some 1, [⟨"user", "a"⟩, ⟨"assistant", "b"⟩])] (some 1)
      "user" "c" (by decide) (by decide) (by decide),
   C3_history_bounded_fifo.2.2.1 [] (some 1) "user" "a",
   C3_history_bounded_fifo.2.2.2.1 [] (some 1),
   C3_history_bounded_fifo.2.2.2.2 3 [] (some 1) "user"⟩

/-- The case-insensitive front match holds exactly when the text begins
with a block whose lowering equals the lowered pattern. -/
theorem lcStartsWithCI_iff (p : List Char) :
    ∀ s, lcStartsWithCI p s = true ↔
      ∃ pre suf, s = pre ++ suf ∧ lowerChars pre = lowerChars p := by
  induction p with
  | nil =>
    intro s
    constructor
    · intro _
      exact ⟨[], s, rfl, rfl⟩
    · intro _
      rfl
  | cons p0 ps ih =>
    intro s
    cases s with
    | nil =>
      constructor
      · intro h
        simp [lcStartsWithCI] at h
      · rintro ⟨pre, suf, hs, hl⟩
        have hpre : pre = [] := by
          cases pre <;> simp_all
        subst hpre
        simp [lowerChars] at hl
    | cons c cs =>
      constructor
      · intro h
        simp only [lcStartsWithCI, Bool.and_eq_true, beq_iff_eq] at h
        obtain ⟨he, hrest⟩ := h
        obtain ⟨pre2, suf, hs, hl⟩ := (ih cs).1 hrest
        refine ⟨c :: pre2, suf, by simp [hs], ?_⟩
        simp only [lowerChars, List.map_cons] at hl ⊢
        rw [hl, he]
      · rintro ⟨pre, suf, hs, hl⟩
        cases pre with
        | nil =>
          simp [lowerChars] at hl
        | cons a pre2 =>
          simp only [lowerChars, List.map_cons, List.cons.injEq] at hl
          obtain ⟨ha, hl2⟩ := hl
          simp only [List.cons_append, List.cons.injEq] at hs
          obtain ⟨hc, hcs⟩ := hs
          subst hc
          simp only [lcStartsWithCI, Bool.and_eq_true, beq_iff_eq]
          exact ⟨ha.symm, (ih cs).2 ⟨pre2, suf, hcs, hl2⟩⟩

/-- A positive replacement count exhibits an occurrence of the pattern. -/
theorem subnAux_pos_imp (pat : List Char) :
    ∀ s, 0 < (subnAux pat s 0).2 →
      ∃ a m b, s = a ++ m ++ b ∧ lowerChars m = lowerChars pat := by
  intro s
  induction s with
  | nil => simp [subnAux]
  | cons c cs ih =>
    intro h
    by_cases hm : lcStartsWithCI pat (c :: cs) = true
    · obtain ⟨pre, suf, hs, hl⟩ := (lcStartsWithCI_iff pat _).1 hm
      exact ⟨[], pre, suf, by simp [hs], hl⟩
    · simp only [subnAux, if_neg hm] at h
      obtain ⟨a, m, b, hs, hl⟩ := ih h
      exact ⟨c :: a, m, b, by simp [hs], hl⟩

/-- Unfolding of the scan at a fresh position. -/
theorem subnAux_cons_zero (pat : List Char) (c : Char) (rest : List Char) :
    subnAux pat (c :: rest) 0 =
      if lcStartsWithCI pat (c :: rest) = true then
        (' ' :: (subnAux pat rest (pat.length - 1)).1, (subnAux pat rest (pat.length - 1)).2 + 1)
      else (c :: (subnAux pat rest 0).1, (subnAux pat rest 0).2) := rfl

/-- An occurrence of the pattern forces a positive replacement count. -/
theorem subnAux_pos_of (pat : List Char) (hp : pat ≠ []) :
    ∀ (a m b : List Char), lowerChars m = lowerChars pat →
      0 < (subnAux pat (a ++ m ++ b) 0).2 := by
  intro a
  induction a with
  | nil =>
    intro m b hl
    cases m with
    | nil =>
      exfalso
      apply hp
      simp only [lowerChars, List.map_nil] at hl
      cases pat with
      | nil => rfl
      | cons q qs => simp at hl
    | cons x xs =>
      have hstart : lcStartsWithCI pat (x :: (xs ++ b)) = true :=
        (lcStartsWithCI_iff pat _).2 ⟨x :: xs, b, by simp, hl⟩
      show 0 < (subnAux pat (x :: (xs ++ b)) 0).2
      rw [subnAux_cons_zero, if_pos hstart]
      simp
  | cons c a2 ih =>
    intro m b hl
    show 0 < (subnAux pat (c :: (a2 ++ m ++ b)) 0).2
    by_cases hs : lcStartsWithCI pat (c :: (a2 ++ m ++ b)) = true
    · rw [subnAux_cons_zero, if_pos hs]
      simp
    · rw [subnAux_cons_zero, if_neg hs]
      exact ih m b hl

/-- C8 counterexample: with username bot, the text hi @bot yo keeps the
mention-present flag but its cleaned text contains a run of three spaces,
so the claimed whitespace collapsing does not hold (the mention is merely
replaced by one space and only the ends are trimmed). -/
theorem C8_counterexample :
    extract_text_without_mention "bot" "hi @bot yo" = ("hi   yo", true) ∧
    no_adjacent_ws ("hi   yo").data = false ∧
    (extract_text_without_mention "bot" "hi @bot yo").1 ≠ "hi yo" := by
  decide

/-- C8 amended: with no configured username the extractor never reports a
mention and returns the trimmed text; with a configured username the
reported flag holds exactly when the raw text contains a substring whose
lowering equals the lowered mention token (the case-insensitive match),
each such occurrence being replaced by a single space before the ends are
trimmed — interior whitespace is not otherwise collapsed. -/
theorem C8_mention_extractor :
    (∀ text : String, extract_text_without_mention "" text = (pyStripStr text, false)) ∧
    (∀ (username text : String), username ≠ "" →
      ((extract_text_without_mention username text).2 = true ↔
        ∃ a m b : List Char, text.data = a ++ m ++ b ∧
          lowerChars m = lowerChars ('@' :: username.data))) := by
  constructor
  · intro text
    simp [extract_text_without_mention]
  · intro u text hu
    by_cases ht : text = ""
    · subst ht
      constructor
      · intro h
        simp [extract_text_without_mention] at h
      · rintro ⟨a, m, b, hs, hl⟩
        exfalso
        have hm : m = [] := by
          cases a <;> cases m <;> simp_all
        subst hm
        simp [lowerChars] at hl
    · unfold extract_text_without_mention
      rw [if_neg (by simp [ht, hu])]
      simp only [decide_eq_true_eq]
      constructor
      · exact fun h => subnAux_pos_imp _ text.data h
      · rintro ⟨a, m, b, hs, hl⟩
        rw [hs]
        exact subnAux_pos_of _ (by simp) a m b hl

/-- C8 witness: the amended contract at a concrete mixed-case mention and
at a concrete unconfigured-username call. -/
theorem C8_witness :
    ((extract_text_without_mention "bot" "hi @BoT x").2 = true ↔
      ∃ a m b : List Char, ("hi @BoT x").data = a ++ m ++ b ∧
        lowerChars m = lowerChars ('@' :: ("bot").data)) ∧
    extract_text_without_mention "" " zz " = (pyStripStr " zz ", false) :=
  ⟨C8_mention_extractor.2 "bot" "hi @BoT x" (by decide),
   C8_mention_extractor.1 " zz "⟩

/-- When the remote oracle yields no reply, the core chain never produces
a RemoteReply decision. -/
theorem process_core_none_not_remote (cfg : BotConfig) (st : BotState)
    (msg : TelegramMessage) (ot mt : String) (now : Rat) (lt : LocalTime)
    (net : GroqNet) (fi : Nat)
    (h : ∀ a b c, get_groq_response a b c net = none) (tx : String) :
    (process_core cfg st msg ot mt now lt net fi).1 ≠ ReplyDecision.remoteReply tx := by
  intro hEq
  unfold process_core at hEq
  dsimp only at hEq
  split_ifs at hEq <;> simp_all [h]

/-- When the remote oracle yields no reply, the whole chain never produces
a RemoteReply decision. -/
theorem process_message_none_not_remote (cfg : BotConfig) (st : BotState)
    (u : TgUpdate) (now : Rat) (lt : LocalTime) (net : GroqNet) (fi : Nat)
    (h : ∀ a b c, get_groq_response a b c net = none) (tx : String) :
    (process_message cfg st u now lt net fi).1 ≠ ReplyDecision.remoteReply tx := by
  intro hEq
  unfold process_message at hEq
  cases hu : u.message with
  | none => simp [hu] at hEq
  | some msg =>
    rw [hu] at hEq
    cases htx : msg.text with
    | none => simp [htx] at hEq
    | some ot =>
      simp only [htx] at hEq
      by_cases hb : (msg.from_user.map FromUser.is_bot).getD false = true
      · simp [hb] at hEq
      · rw [if_neg hb] at hEq
        unfold process_text_message at hEq
        dsimp only at hEq
        by_cases hm : (extract_text_without_mention cfg.BOT_USERNAME ot).2 = true
        · by_cases hc : (extract_text_without_mention cfg.BOT_USERNAME ot).1 = ""
          · rw [if_pos hm, if_pos hc] at hEq
            simp at hEq
          · rw [if_pos hm, if_neg hc] at hEq
            exact process_core_none_not_remote cfg st msg ot _ now lt net fi h tx hEq
        · rw [if_neg hm] at hEq
          by_cases hmode : get_auto_reply_mode st msg.chat_id = AUTO_REPLY_MENTION ∧
              strStartsWith (pyStripStr ot) "/" = false
          · rw [if_pos hmode] at hEq
            simp at hEq
          · rw [if_neg hmode] at hEq
            exact process_core_none_not_remote cfg st msg ot _ now lt net fi h tx hEq

/-- A Fallback decision of the core chain always carries one of the
canned messages. -/
theorem process_core_fallback_mem (cfg : BotConfig) (st : BotState)
    (msg : TelegramMessage) (ot mt : String) (now : Rat) (lt : LocalTime)
    (net : GroqNet) (fi : Nat) (tx : String)
    (hEq : (process_core cfg st msg ot mt now lt net fi).1 = ReplyDecision.fallback tx) :
    tx ∈ FALLBACK_MESSAGES := by
  unfold process_core at hEq
  dsimp only at hEq
  split_ifs at hEq <;> simp_all
  subst hEq
  exact get_fallback_message_mem fi

/-- A Fallback decision of the whole chain always carries one of the
canned messages. -/
theorem process_message_fallback_mem (cfg : BotConfig) (st : BotState)
    (u : TgUpdate) (now : Rat) (lt : LocalTime) (net : GroqNet) (fi : Nat) (tx : String)
    (hEq : (process_message cfg st u now lt net fi).1 = ReplyDecision.fallback tx) :
    tx ∈ FALLBACK_MESSAGES := by
  unfold process_message at hEq
  cases hu : u.message with
  | none => simp [hu] at hEq
  | some msg =>
    rw [hu] at hEq
    cases htx : msg.text with
    | none => simp [htx] at hEq
    | some ot =>
      simp only [htx] at hEq
      by_cases hb : (msg.from_user.map FromUser.is_bot).getD false = true
      · simp [hb] at hEq
      · rw [if_neg hb] at hEq
        unfold process_text_message at hEq
        dsimp only at hEq
        by_cases hm : (extract_text_without_mention cfg.BOT_USERNAME ot).2 = true
        · by_cases hc : (extract_text_without_mention cfg.BOT_USERNAME ot).1 = ""
          · rw [if_pos hm, if_pos hc] at hEq
            simp at hEq
          · rw [if_pos hm, if_neg hc] at hEq
            exact process_core_fallback_mem cfg st msg ot _ now lt net fi tx hEq
        · rw [if_neg hm] at hEq
          by_cases hmode : get_auto_reply_mode st msg.chat_id = AUTO_REPLY_MENTION ∧
              strStartsWith (pyStripStr ot) "/" = false
          · rw [if_pos hmode] at hEq
            simp at hEq
          · rw [if_neg hmode] at hEq
            exact process_core_fallback_mem cfg st msg ot _ now lt net fi tx hEq

/-- C9: whenever the remote call yields no reply the chain cannot answer
with a RemoteReply; every Fallback decision carries an element of the
fixed canned list, which is nonempty; and in the concrete timeout scenario
the decision is exactly Fallback with the drawn canned message, for every
random draw. -/
theorem C9_no_reply_gives_fallback :
    (∀ (cfg : BotConfig) (st : BotState) (u : TgUpdate) (now : Rat) (lt : LocalTime)
        (net : GroqNet) (fi : Nat) (tx : String),
      (∀ a b c, get_groq_response a b c net = none) →
      (process_message cfg st u now lt net fi).1 ≠ ReplyDecision.remoteReply tx) ∧
    (∀ (cfg : BotConfig) (st : BotState) (u : TgUpdate) (now : Rat) (lt : LocalTime)
        (net : GroqNet) (fi : Nat) (tx : String),
      (process_message cfg st u now lt net fi).1 = ReplyDecision.fallback tx →
      tx ∈ FALLBACK_MESSAGES) ∧
    FALLBACK_MESSAGES ≠ [] ∧
    (∀ fi : Nat,
      (process_message demo_config empty_state
        ⟨some { text := some "hello", from_user := some human_user, chat_id := some 1,
                message_id := some 2, reply_to_from := none }⟩
        0 demo_time .timeout fi).1 = ReplyDecision.fallback (get_fallback_message fi)) :=
  ⟨fun cfg st u now lt net fi tx h =>
      process_message_none_not_remote cfg st u now lt net fi h tx,
   fun cfg st u now lt net fi tx h =>
      process_message_fallback_mem cfg st u now lt net fi tx h,
   by decide,
   fun fi => rfl⟩

/-- C9 witness: the no-RemoteReply and membership clauses applied at the
concrete timeout scenario. -/
theorem C9_witness :
    (process_message demo_config empty_state
        ⟨some { text := some "hello", from_user := some human_user, chat_id := some 1,
                message_id := some 2, reply_to_from := none }⟩
        0 demo_time .timeout 3).1 ≠ ReplyDecision.remoteReply "hi" ∧
    get_fallback_message 3 ∈ FALLBACK_MESSAGES :=
  ⟨C9_no_reply_gives_fallback.1 demo_config empty_state
      ⟨some { text := some "hello", from_user := some human_user, chat_id := some 1,
              message_id := some 2, reply_to_from := none }⟩
      0 demo_time .timeout 3 "hi" (fun _ _ _ => rfl),
   C9_no_reply_gives_fallback.2.1 demo_config empty_state
      ⟨some { text := some "hello", from_user := some human_user, chat_id := some 1,
              message_id := some 2, reply_to_from := none }⟩
      0 demo_time .timeout 3 (get_fallback_message 3) (by rfl)⟩
